import Mathlib

/-!
Shallow embedding of the dispatch/execution core of an asynchronous job
processing engine (a FastAPI + SQLAlchemy + Redis service).

Embedding conventions:
* Timestamps (`datetime.now(timezone.utc)`) are rationals (`ℚ`), passed
  explicitly to each operation in place of the wall clock.
* The durable store is viewed per job: each operation acts on the single
  `Job` row it reads, exactly as the source functions do.
* `SELECT ... FOR UPDATE SKIP LOCKED` is modelled by a `lockedByOther`
  boolean: when another transaction holds the row lock, the skip-locked
  read returns no row.
* The Redis client (`app/redis_client.py`) is a `RedisState` value holding
  the `job_queue:priority` sorted set (member, score assoc list), the
  `job_queue:processing` set, the `job_stats` hash and the list of
  published events.  `get_redis()` returning `None` (USE_REDIS = false)
  is an `Option RedisState` of `none`.
* Payloads and results are opaque key/value documents
  (`List (String × String)`); the core never inspects them.
* Async handlers are modelled by their observable outcome on one
  invocation: a result, a raised error string, or the `asyncio.wait_for`
  timeout firing.
-/

/-- Opaque JSON-like document used for `payload` and `result`. -/
abbrev JsonObj := List (String × String)

/-- Job lifecycle states, from `app/models/job.py` (`JobStatus`). -/
inductive JobStatus
  | pending
  | queued
  | running
  | completed
  | failed
  | retrying
  | cancelled
deriving DecidableEq, Repr

/-- A row of the `jobs` table, from `app/models/job.py` (`Job`).
`attempt` and `max_retries` are DB integers constrained non-negative by
the API schema (`JobCreate`: `ge=0`), hence `Nat`. -/
structure Job where
  id : String
  name : String
  job_type : String
  status : JobStatus
  priority : Int
  payload : JsonObj
  result : Option JsonObj
  error_message : Option String
  attempt : Nat
  max_retries : Nat
  next_retry_at : Option ℚ
  created_at : ℚ
  scheduled_at : Option ℚ
  started_at : Option ℚ
  completed_at : Option ℚ
  duration_seconds : Option ℚ
  created_by : Option String
  worker_id : Option String
deriving DecidableEq, Repr

/-- Worker/retry configuration from `app/config.py` (`Settings`).
`RETRY_BACKOFF_BASE` is a float whose default 2.0 we embed in `ℚ`. -/
structure Settings where
  RETRY_BACKOFF_BASE : ℚ
  JOB_TIMEOUT_SECONDS : Nat
  MAX_RETRIES : Nat
  MAX_WORKERS : Nat
deriving DecidableEq, Repr

/-- The defaults declared in `app/config.py`. -/
def defaultSettings : Settings :=
  { RETRY_BACKOFF_BASE := 2
    JOB_TIMEOUT_SECONDS := 300
    MAX_RETRIES := 5
    MAX_WORKERS := 10 }

/-- State of the Redis backend as used by `RedisQueue`
(`app/redis_client.py`): sorted set `job_queue:priority` (member ↦ score),
set `job_queue:processing`, hash `job_stats`, and the events published on
the `job_events` channel as (event type, job id) pairs. -/
structure RedisState where
  queue : List (String × Int)
  processing : List String
  stats : List (String × Int)
  events : List (String × String)
deriving DecidableEq, Repr

namespace RedisState

/-- Redis with no keys set. -/
def empty : RedisState := { queue := [], processing := [], stats := [], events := [] }

/-- Redis ZADD: insert the member with the given score, or update it. -/
def zadd (s : RedisState) (member : String) (score : Int) : RedisState :=
  { s with queue :=
      if s.queue.any (fun e => e.1 = member) then
        s.queue.map (fun e => if e.1 = member then (member, score) else e)
      else
        s.queue ++ [(member, score)] }

/-- Redis ZREM: drop the member from the sorted set. -/
def zrem (s : RedisState) (member : String) : RedisState :=
  { s with queue := s.queue.filter (fun e => e.1 ≠ member) }

/-- Redis SREM on the processing set. -/
def srem (s : RedisState) (member : String) : RedisState :=
  { s with processing := s.processing.filter (fun m => m ≠ member) }

/-- Redis HINCRBY on the job_stats hash. -/
def hincrby (s : RedisState) (field : String) (amount : Int) : RedisState :=
  { s with stats :=
      if s.stats.any (fun e => e.1 = field) then
        s.stats.map (fun e => if e.1 = field then (e.1, e.2 + amount) else e)
      else
        s.stats ++ [(field, amount)] }

/-- Model of `RedisQueue.enqueue`: higher priority means lower score, score = −priority. -/
def enqueue (s : RedisState) (job_id : String) (priority : Int) : RedisState :=
  s.zadd job_id (-priority)

/-- Model of `RedisQueue.mark_done`: remove from the processing set. -/
def mark_done (s : RedisState) (job_id : String) : RedisState :=
  s.srem job_id

/-- Model of `RedisQueue.remove`: drop from the queue and the processing set. -/
def remove (s : RedisState) (job_id : String) : RedisState :=
  (s.zrem job_id).srem job_id

/-- Model of `RedisQueue.increment_stat`. -/
def increment_stat (s : RedisState) (stat_name : String) (amount : Int) : RedisState :=
  s.hincrby stat_name amount

/-- Model of `RedisQueue.publish_event`: fire-and-forget publication, recorded as
an (event type, job id) pair. -/
def publish_event (s : RedisState) (event_type : String) (job_id : String) : RedisState :=
  { s with events := s.events ++ [(event_type, job_id)] }

/-- Score of a member of the priority sorted set, when present. -/
def queueScore (s : RedisState) (job_id : String) : Option Int :=
  (s.queue.find? (fun e => e.1 = job_id)).map (fun e => e.2)

end RedisState

/-- Value of a `job_stats` counter (0 when the field or Redis is absent). -/
def getStat (r : Option RedisState) (stat_name : String) : Int :=
  match r with
  | none => 0
  | some s =>
    match s.stats.find? (fun e => e.1 = stat_name) with
    | some e => e.2
    | none => 0

/-- Observable outcome of one invocation of an async handler under
`asyncio.wait_for`: it returned a result, raised an exception rendered as
a string, or the timeout fired. -/
inductive HandlerOutcome
  | success (result : JsonObj)
  | raised (error : String)
  | timedOut
deriving DecidableEq, Repr

/-- Lookup of the handler registered for a job type, if any (HANDLER_MAP.get). -/
abbrev HandlerMap := String → Option (JsonObj → HandlerOutcome)

/-- Statuses eligible for claiming, the SELECT filter of `_claim_job`. -/
def claimableStatuses : List JobStatus :=
  [JobStatus.pending, JobStatus.queued, JobStatus.retrying]

/-- Model of `JobExecutor._claim_job`: a skip-locked SELECT filtered
on the eligible statuses; on success set `status = RUNNING`,
`started_at = now`, `attempt += 1`, `worker_id = self`; otherwise return
`None` without touching the row. -/
def claim_job (worker_id : String) (now : ℚ) (lockedByOther : Bool) (job : Job) :
    Option Job :=
  if lockedByOther then none
  else if job.status ∈ claimableStatuses then
    some { job with
      status := JobStatus.running
      started_at := some now
      attempt := job.attempt + 1
      worker_id := some worker_id }
  else none

/-- Model of `JobExecutor._complete_job`: terminal success write plus Redis
effects (`mark_done`, `completed` counter, `job_completed` event). -/
def complete_job (now : ℚ) (job : Job) (result : JsonObj) (redis : Option RedisState) :
    Job × Option RedisState :=
  let duration : Option ℚ := job.started_at.map (fun s => now - s)
  let j : Job := { job with
    status := JobStatus.completed
    result := some result
    completed_at := some now
    duration_seconds := duration
    error_message := none }
  (j, redis.map (fun r =>
    ((r.mark_done job.id).increment_stat "completed" 1).publish_event "job_completed" job.id))

/-- Model of `JobExecutor._fail_job`: terminal failure write (`duration_seconds`
only when `started_at` is set) plus Redis effects (`mark_done`, `failed`
counter, `job_failed` event). -/
def fail_job (now : ℚ) (job : Job) (error : String) (redis : Option RedisState) :
    Job × Option RedisState :=
  let j0 : Job := { job with
    status := JobStatus.failed
    error_message := some error
    completed_at := some now }
  let j : Job :=
    match job.started_at with
    | some s => { j0 with duration_seconds := some (now - s) }
    | none => j0
  (j, redis.map (fun r =>
    ((r.mark_done job.id).increment_stat "failed" 1).publish_event "job_failed" job.id))

/-- Model of `JobExecutor._handle_failure`: retry with exponential backoff
`RETRY_BACKOFF_BASE ^ attempt` while `attempt < max_retries`, else fail
permanently.  The retry branch does not re-enqueue: it only marks done
and bumps the `retries` counter. -/
def handle_failure (st : Settings) (now : ℚ) (job : Job) (error : String)
    (redis : Option RedisState) : Job × Option RedisState :=
  if job.attempt < job.max_retries then
    let backoff : ℚ := st.RETRY_BACKOFF_BASE ^ job.attempt
    let j : Job := { job with
      status := JobStatus.retrying
      next_retry_at := some (now + backoff)
      error_message := some ("Attempt " ++ toString job.attempt ++ " failed: " ++ error) }
    (j, redis.map (fun r => (r.mark_done job.id).increment_stat "retries" 1))
  else
    fail_job now job error redis

/-- Model of `JobExecutor.execute`: claim, look up the handler, run it under the
timeout, and dispatch on the outcome.  `claimTime` and `finishTime` stand
for the two `datetime.now` calls; the returned `Bool` is the original
return value. -/
def execute (st : Settings) (handlers : HandlerMap) (worker_id : String)
    (claimTime finishTime : ℚ) (lockedByOther : Bool) (job : Job)
    (redis : Option RedisState) : Job × Option RedisState × Bool :=
  match claim_job worker_id claimTime lockedByOther job with
  | none => (job, redis, false)
  | some j =>
    match handlers j.job_type with
    | none =>
      let out := fail_job finishTime j ("No handler for type: " ++ j.job_type) redis
      (out.1, out.2, false)
    | some h =>
      match h j.payload with
      | HandlerOutcome.success res =>
        let out := complete_job finishTime j res redis
        (out.1, out.2, true)
      | HandlerOutcome.timedOut =>
        let out := handle_failure st finishTime j
          ("Job timed out after " ++ toString st.JOB_TIMEOUT_SECONDS ++ "s") redis
        (out.1, out.2, false)
      | HandlerOutcome.raised e =>
        let out := handle_failure st finishTime j e redis
        (out.1, out.2, false)

/-- Model of `create_job` (POST /jobs in `app/api/jobs.py`): insert the row as
QUEUED with `attempt = 0`, enqueue at its priority, bump `enqueued`. -/
def create_job (now : ℚ) (id name job_type : String) (priority : Int)
    (payload : JsonObj) (max_retries : Nat) (scheduled_at : Option ℚ)
    (created_by : String) (redis : Option RedisState) : Job × Option RedisState :=
  let job : Job := {
    id := id
    name := name
    job_type := job_type
    status := JobStatus.queued
    priority := priority
    payload := payload
    result := none
    error_message := none
    attempt := 0
    max_retries := max_retries
    next_retry_at := none
    created_at := now
    scheduled_at := scheduled_at
    started_at := none
    completed_at := none
    duration_seconds := none
    created_by := some created_by
    worker_id := none }
  (job, redis.map (fun r => (r.enqueue id priority).increment_stat "enqueued" 1))

/-- Model of the cancel endpoint (`app/api/jobs.py`): reject (HTTP 400, row
untouched) when status is COMPLETED or CANCELLED; otherwise set
CANCELLED with `completed_at = now` and remove the id from the queue and
processing set. -/
def cancel_job (now : ℚ) (job : Job) (redis : Option RedisState) :
    Except String (Job × Option RedisState) :=
  if job.status = JobStatus.completed ∨ job.status = JobStatus.cancelled then
    Except.error "Cannot cancel job in terminal state"
  else
    let j : Job := { job with status := JobStatus.cancelled, completed_at := some now }
    Except.ok (j, redis.map (fun r => r.remove job.id))

/-- Model of the retry endpoint (`app/api/jobs.py`): reject (HTTP 400, row
untouched) unless status is FAILED or CANCELLED; otherwise reset to
QUEUED with `attempt = 0`, clear error/result/timings/next_retry_at, and
re-enqueue at the priority of the job. -/
def retry_job (job : Job) (redis : Option RedisState) :
    Except String (Job × Option RedisState) :=
  if job.status = JobStatus.failed ∨ job.status = JobStatus.cancelled then
    let j : Job := { job with
      status := JobStatus.queued
      attempt := 0
      error_message := none
      result := none
      started_at := none
      completed_at := none
      duration_seconds := none
      next_retry_at := none }
    Except.ok (j, redis.map (fun r => r.enqueue job.id job.priority))
  else
    Except.error "Can only retry failed or cancelled jobs"

/-- The sweep filter of `WorkerManager._retry_loop`:
`status = RETRYING AND next_retry_at <= now` (SQL NULL compares false). -/
def retryDue (now : ℚ) (job : Job) : Bool :=
  decide (job.status = JobStatus.retrying) &&
    (match job.next_retry_at with
     | some t => decide (t ≤ now)
     | none => false)

/-- Python `x or d` on an integer: `0` is falsy, so it yields `d`. -/
def pyIntOr (x d : Int) : Int :=
  if x = 0 then d else x

/-- Body of `WorkerManager._retry_loop` for one swept job id.  With Redis
available it re-enqueues at `scalar() or 5` of the row priority and
leaves the row untouched; without Redis it resets the row (skip-locked)
to QUEUED and clears `next_retry_at`. -/
def retry_sweep_job (job : Job) (redis : Option RedisState) (lockedByOther : Bool) :
    Job × Option RedisState :=
  match redis with
  | some r => (job, some (r.enqueue job.id (pyIntOr job.priority 5)))
  | none =>
    if lockedByOther then (job, none)
    else ({ job with status := JobStatus.queued, next_retry_at := none }, none)

/-- One full executor pass for a handler that always raises `err`: the
row lock is free, the job is claimed and failed at time `t`. -/
def failCycle (st : Settings) (err worker : String) (t : ℚ) (s : Job × Option RedisState) :
    Job × Option RedisState :=
  let out := execute st (fun _ => some (fun _ => HandlerOutcome.raised err)) worker t t
    false s.1 s.2
  (out.1, out.2.1)

/-- Iterate `failCycle` against an always-raising handler, claiming the
job again the moment each backoff expires, and collect the backoff taken
at every transition into RETRYING.  Fuel bounds the number of cycles. -/
def collectBackoffs (st : Settings) (err worker : String) :
    Nat → ℚ → Job → Option RedisState → List ℚ
  | 0, _, _, _ => []
  | Nat.succ fuel, t, job, redis =>
    let out := failCycle st err worker t (job, redis)
    if out.1.status = JobStatus.retrying then
      match out.1.next_retry_at with
      | some nt => (nt - t) :: collectBackoffs st err worker fuel nt out.1 out.2
      | none => []
    else []

/-- A job submitted at time 0 with `max_retries = 2`, together with the
resulting Redis state (spec scenario 2). -/
def sampleSubmit : Job × Option RedisState :=
  create_job 0 "J" "job-J" "email" 5 [] 2 none "alice" (some RedisState.empty)

/-- First executor pass on `sampleSubmit` with a handler raising "boom",
claimed at time 0. -/
def sampleRun1 : Job × Option RedisState :=
  failCycle defaultSettings "boom" "w1" 0 sampleSubmit

/-- Second executor pass, claimed at time 2 when the first backoff has
elapsed. -/
def sampleRun2 : Job × Option RedisState :=
  failCycle defaultSettings "boom" "w1" 2 sampleRun1

/-- A RETRYING job with priority 0 (legal per `JobCreate`: `ge=0`) whose
backoff has expired: input for the retry-scheduler sweep. -/
def retryingP0 : Job :=
  { (create_job 0 "P0" "p-zero" "email" 0 [] 5 none "bob" none).1 with
    status := JobStatus.retrying
    next_retry_at := some 1
    attempt := 1 }

/-- Value of a field of a stats hash held as an assoc list (0 if absent). -/
def lookup0 (l : List (String × Int)) (field : String) : Int :=
  match l.find? (fun e => e.1 = field) with
  | some e => e.2
  | none => 0

/-- Composition `submit(J); cancel(J.id); retry(J.id)` of the API
operations, at submit time `t1` and cancel time `t2`. -/
def submitCancelRetry (t1 t2 : ℚ) (id name job_type : String) (priority : Int)
    (payload : JsonObj) (max_retries : Nat) (scheduled_at : Option ℚ)
    (created_by : String) (redis : Option RedisState) :
    Except String (Job × Option RedisState) :=
  let s1 := create_job t1 id name job_type priority payload max_retries scheduled_at
    created_by redis
  match cancel_job t2 s1.1 s1.2 with
  | Except.error e => Except.error e
  | Except.ok s2 => retry_job s2.1 s2.2

theorem failCycle_claimable (st : Settings) (err w : String) (t : ℚ) (job : Job)
    (r : Option RedisState) (hclaim : job.status ∈ claimableStatuses) :
    failCycle st err w t (job, r) =
      handle_failure st t
        { job with
          status := JobStatus.running, started_at := some t,
          attempt := job.attempt + 1, worker_id := some w } err r := by
  simp [failCycle, execute, claim_job, hclaim]

/-- One always-failing cycle while retry budget remains: the job comes
back RETRYING with backoff `base ^ (attempt + 1)`. -/
theorem failCycle_retry (st : Settings) (err w : String) (t : ℚ) (job : Job)
    (r : Option RedisState) (hclaim : job.status ∈ claimableStatuses)
    (h : job.attempt + 1 < job.max_retries) :
    failCycle st err w t (job, r) =
      ({ job with
         status := JobStatus.retrying,
         started_at := some t, attempt := job.attempt + 1, worker_id := some w,
         next_retry_at := some (t + st.RETRY_BACKOFF_BASE ^ (job.attempt + 1)),
         error_message := some ("Attempt " ++ toString (job.attempt + 1) ++ " failed: " ++ err) },
       r.map (fun rr => (rr.mark_done job.id).increment_stat "retries" 1)) := by
  rw [failCycle_claimable st err w t job r hclaim]
  simp [handle_failure, h]

/-- One always-failing cycle with the budget exhausted: the executor
calls `fail_job` on the claimed row. -/
theorem failCycle_exhausted (st : Settings) (err w : String) (t : ℚ) (job : Job)
    (r : Option RedisState) (hclaim : job.status ∈ claimableStatuses)
    (h : ¬ job.attempt + 1 < job.max_retries) :
    failCycle st err w t (job, r) =
      fail_job t
        { job with
          status := JobStatus.running, started_at := some t,
          attempt := job.attempt + 1, worker_id := some w } err r := by
  rw [failCycle_claimable st err w t job r hclaim]
  simp [handle_failure, h]

theorem collectBackoffs_eq (st : Settings) (err w : String) (fuel : Nat) :
    ∀ (t : ℚ) (job : Job) (r : Option RedisState),
      job.status ∈ claimableStatuses →
      job.max_retries - job.attempt ≤ fuel →
      collectBackoffs st err w fuel t job r =
        (List.range' (job.attempt + 1) (job.max_retries - (job.attempt + 1))).map
          (fun k => st.RETRY_BACKOFF_BASE ^ k) := by
  induction fuel with
  | zero =>
    intro t job r hclaim hfuel
    have h0 : job.max_retries - (job.attempt + 1) = 0 := by omega
    simp [collectBackoffs, h0]
  | succ fuel ih =>
    intro t job r hclaim hfuel
    rw [show collectBackoffs st err w (Nat.succ fuel) t job r =
        (let out := failCycle st err w t (job, r)
         if out.1.status = JobStatus.retrying then
           match out.1.next_retry_at with
           | some nt => (nt - t) :: collectBackoffs st err w fuel nt out.1 out.2
           | none => []
         else []) from rfl]
    by_cases h : job.attempt + 1 < job.max_retries
    · rw [failCycle_retry st err w t job r hclaim h]
      have hlt : job.max_retries - (job.attempt + 1) =
          (job.max_retries - (job.attempt + 2)) + 1 := by omega
      have hrec := ih (t + st.RETRY_BACKOFF_BASE ^ (job.attempt + 1))
        { job with
          status := JobStatus.retrying,
          started_at := some t, attempt := job.attempt + 1, worker_id := some w,
          next_retry_at := some (t + st.RETRY_BACKOFF_BASE ^ (job.attempt + 1)),
          error_message := some ("Attempt " ++ toString (job.attempt + 1) ++ " failed: " ++ err) }
        (r.map (fun rr => (rr.mark_done job.id).increment_stat "retries" 1))
        (by simp [claimableStatuses]) (by simp; omega)
      simp only [] at hrec
      simp [hrec, hlt, List.range'_succ, add_sub_cancel_left]
    · rw [failCycle_exhausted st err w t job r hclaim h]
      have h0 : job.max_retries - (job.attempt + 1) = 0 := by omega
      simp [fail_job, h0]

theorem lookup0_cons_of_eq (hd : String × Int) (l : List (String × Int)) (n : String)
    (h : hd.1 = n) : lookup0 (hd :: l) n = hd.2 := by
  simp [lookup0, List.find?_cons, h]

theorem lookup0_cons_of_ne (hd : String × Int) (l : List (String × Int)) (n : String)
    (h : hd.1 ≠ n) : lookup0 (hd :: l) n = lookup0 l n := by
  simp [lookup0, List.find?_cons, h]

theorem lookup0_hincr (l : List (String × Int)) (n : String) (a : Int) :
    lookup0 (if l.any (fun e => e.1 = n) then
               l.map (fun e => if e.1 = n then (e.1, e.2 + a) else e)
             else l ++ [(n, a)]) n = lookup0 l n + a := by
  induction l with
  | nil => simp [lookup0]
  | cons hd tl ih =>
    by_cases hh : hd.1 = n
    · have hany : ((hd :: tl).any fun e => decide (e.1 = n)) = true := by simp [hh]
      rw [if_pos hany, List.map_cons, if_pos hh,
        lookup0_cons_of_eq (hd.1, hd.2 + a) _ n hh, lookup0_cons_of_eq hd tl n hh]
    · have hfhd : (if hd.1 = n then (hd.1, hd.2 + a) else hd) = hd := if_neg hh
      by_cases htl : (tl.any fun e => decide (e.1 = n)) = true
      · have hany : ((hd :: tl).any fun e => decide (e.1 = n)) = true := by
          simp only [List.any_cons, htl, Bool.or_true]
        rw [if_pos hany, List.map_cons, hfhd, lookup0_cons_of_ne hd _ n hh,
          lookup0_cons_of_ne hd tl n hh]
        have h2 := ih
        rw [if_pos htl] at h2
        exact h2
      · have htl2 : (tl.any fun e => decide (e.1 = n)) = false := by
          cases hcase : (tl.any fun e => decide (e.1 = n)) with
          | false => rfl
          | true => exact absurd hcase htl
        have hany : ((hd :: tl).any fun e => decide (e.1 = n)) = false := by
          simp only [List.any_cons, htl2, Bool.or_false]
          simp [hh]
        rw [if_neg (by simp [hany]), List.cons_append, lookup0_cons_of_ne hd _ n hh,
          lookup0_cons_of_ne hd tl n hh]
        have h2 := ih
        rw [if_neg htl] at h2
        exact h2

theorem getStat_increment (s : RedisState) (n : String) (a : Int) :
    getStat (some (s.increment_stat n a)) n = getStat (some s) n + a := by
  have h := lookup0_hincr s.stats n a
  simpa [getStat, lookup0, RedisState.increment_stat, RedisState.hincrby] using h

theorem getStat_mark_done (s : RedisState) (id n : String) :
    getStat (some (s.mark_done id)) n = getStat (some s) n := by
  simp [getStat, RedisState.mark_done, RedisState.srem]

theorem getStat_publish (s : RedisState) (e id n : String) :
    getStat (some (s.publish_event e id)) n = getStat (some s) n := by
  simp [getStat, RedisState.publish_event]

/-- C2: on a recoverable failure with retry budget remaining
(`attempt < max_retries`, attempt already incremented at claim), the
executor sets RETRYING with `next_retry_at = now + base ^ attempt` and the
formatted error message, and bumps the `retries` counter without
re-enqueueing; otherwise it fails the job permanently. -/
theorem C2_retry_policy (st : Settings) (now : ℚ) (job : Job) (error : String)
    (r : RedisState) :
    (job.attempt < job.max_retries →
      (handle_failure st now job error (some r)).1 =
        { job with
          status := JobStatus.retrying,
          next_retry_at := some (now + st.RETRY_BACKOFF_BASE ^ job.attempt),
          error_message := some ("Attempt " ++ toString job.attempt ++ " failed: " ++ error) } ∧
      (handle_failure st now job error (some r)).2 =
        some ((r.mark_done job.id).increment_stat "retries" 1) ∧
      ((r.mark_done job.id).increment_stat "retries" 1).queue = r.queue ∧
      getStat (handle_failure st now job error (some r)).2 "retries" =
        getStat (some r) "retries" + 1)
    ∧ (¬ job.attempt < job.max_retries →
      handle_failure st now job error (some r) = fail_job now job error (some r) ∧
      (handle_failure st now job error (some r)).1.status = JobStatus.failed ∧
      (handle_failure st now job error (some r)).1.completed_at = some now ∧
      (handle_failure st now job error (some r)).1.error_message = some error) := by
  constructor
  · intro h
    refine ⟨by simp [handle_failure, h], by simp [handle_failure, h], ?_, ?_⟩
    · simp [RedisState.increment_stat, RedisState.hincrby, RedisState.mark_done,
        RedisState.srem]
    · rw [show (handle_failure st now job error (some r)).2 =
          some ((r.mark_done job.id).increment_stat "retries" 1) by
            simp [handle_failure, h]]
      rw [getStat_increment, getStat_mark_done]
  · intro h
    refine ⟨by simp [handle_failure, h], ?_, ?_, ?_⟩ <;>
      cases hs : job.started_at <;>
        simp [handle_failure, h, fail_job, hs]

/-- C2 witness: concrete instantiation of both branches. -/
theorem C2_retry_policy_witness :
    (handle_failure defaultSettings 0 sampleSubmit.1 "boom" (some RedisState.empty)).1.status =
      JobStatus.retrying ∧
    getStat (handle_failure defaultSettings 0 sampleRun2.1 "boom" (some RedisState.empty)).2
      "retries" = getStat (some RedisState.empty) "retries" := by
  constructor
  · have h := (C2_retry_policy defaultSettings 0 sampleSubmit.1 "boom" RedisState.empty).1
      (by decide)
    rw [h.1]
  · have h := (C2_retry_policy defaultSettings 0 sampleRun2.1 "boom" RedisState.empty).2
      (by decide)
    rw [h.1]
    simp [fail_job, getStat, RedisState.mark_done, RedisState.srem,
      RedisState.increment_stat, RedisState.hincrby, RedisState.publish_event,
      RedisState.empty]

/-- C3: a claim attempt either finds the row unlocked in an eligible
status and atomically promotes it (RUNNING, `started_at = now`,
`worker_id` = claimer, `attempt + 1`, everything else unchanged), or
returns `none`, in which case the row is returned to the store untouched
(the none branch of `claim_job` performs no write). -/
theorem C3_claim_dichotomy (w : String) (now : ℚ) (locked : Bool) (job : Job) :
    (claim_job w now locked job = none ∧
      (locked = true ∨ job.status ∉ claimableStatuses)) ∨
    (∃ j', claim_job w now locked job = some j' ∧
      locked = false ∧ job.status ∈ claimableStatuses ∧
      j'.status = JobStatus.running ∧ j'.started_at = some now ∧
      j'.worker_id = some w ∧ j'.attempt = job.attempt + 1 ∧
      j'.id = job.id ∧ j'.name = job.name ∧ j'.job_type = job.job_type ∧
      j'.priority = job.priority ∧ j'.payload = job.payload ∧
      j'.result = job.result ∧ j'.error_message = job.error_message ∧
      j'.max_retries = job.max_retries ∧ j'.next_retry_at = job.next_retry_at ∧
      j'.created_at = job.created_at ∧ j'.scheduled_at = job.scheduled_at ∧
      j'.completed_at = job.completed_at ∧
      j'.duration_seconds = job.duration_seconds ∧ j'.created_by = job.created_by) := by
  cases locked with
  | true => exact Or.inl ⟨by simp [claim_job], Or.inl rfl⟩
  | false =>
    by_cases h : job.status ∈ claimableStatuses
    · exact Or.inr ⟨{ job with
        status := JobStatus.running, started_at := some now,
        attempt := job.attempt + 1, worker_id := some w },
        by simp [claim_job, h], rfl, h, rfl, rfl, rfl, rfl, rfl, rfl, rfl, rfl, rfl, rfl,
        rfl, rfl, rfl, rfl, rfl, rfl, rfl, rfl⟩
    · exact Or.inl ⟨by simp [claim_job, h], Or.inr h⟩

/-- C10: while retry budget remains, `_handle_failure` writes only
`status`, `next_retry_at` and `error_message`; every other field of the
row — including `result`, `completed_at` and `duration_seconds` — is
carried over unchanged from the failed attempt. -/
theorem C10_retry_frame (st : Settings) (now : ℚ) (job : Job) (error : String)
    (r : Option RedisState) (h : job.attempt < job.max_retries) :
    (handle_failure st now job error r).1.status = JobStatus.retrying ∧
    (handle_failure st now job error r).1.attempt = job.attempt ∧
    (handle_failure st now job error r).1.result = job.result ∧
    (handle_failure st now job error r).1.started_at = job.started_at ∧
    (handle_failure st now job error r).1.completed_at = job.completed_at ∧
    (handle_failure st now job error r).1.duration_seconds = job.duration_seconds ∧
    (handle_failure st now job error r).1.priority = job.priority ∧
    (handle_failure st now job error r).1.payload = job.payload ∧
    (handle_failure st now job error r).1.worker_id = job.worker_id ∧
    (handle_failure st now job error r).1.id = job.id ∧
    (handle_failure st now job error r).1.name = job.name ∧
    (handle_failure st now job error r).1.job_type = job.job_type ∧
    (handle_failure st now job error r).1.max_retries = job.max_retries ∧
    (handle_failure st now job error r).1.created_at = job.created_at ∧
    (handle_failure st now job error r).1.scheduled_at = job.scheduled_at ∧
    (handle_failure st now job error r).1.created_by = job.created_by := by
  simp [handle_failure, h]

/-- C10 witness: the frame at a concrete retrying-eligible input. -/
theorem C10_retry_frame_witness :
    (handle_failure defaultSettings 0 sampleSubmit.1 "boom" none).1.result =
      sampleSubmit.1.result ∧
    (handle_failure defaultSettings 0 sampleSubmit.1 "boom" none).1.completed_at =
      sampleSubmit.1.completed_at := by
  have h := C10_retry_frame defaultSettings 0 sampleSubmit.1 "boom" none (by decide)
  exact ⟨h.2.2.1, h.2.2.2.2.1⟩

/-- C7: when the handler returns within the timeout for a claimed job
(`started_at` set at claim), the executor writes COMPLETED with the
result, `completed_at = now`, `duration_seconds = now − started_at`,
clears the error, removes the job from the processing set, bumps the
`completed` counter and publishes `job_completed`. -/
theorem C7_complete_spec (now s : ℚ) (job : Job) (res : JsonObj) (r : RedisState)
    (h : job.started_at = some s) :
    (complete_job now job res (some r)).1.status = JobStatus.completed ∧
    (complete_job now job res (some r)).1.result = some res ∧
    (complete_job now job res (some r)).1.completed_at = some now ∧
    (complete_job now job res (some r)).1.duration_seconds = some (now - s) ∧
    (complete_job now job res (some r)).1.error_message = none ∧
    (complete_job now job res (some r)).2 =
      some (((r.mark_done job.id).increment_stat "completed" 1).publish_event
        "job_completed" job.id) ∧
    job.id ∉ (((r.mark_done job.id).increment_stat "completed" 1).publish_event
        "job_completed" job.id).processing ∧
    getStat (complete_job now job res (some r)).2 "completed" =
      getStat (some r) "completed" + 1 ∧
    ("job_completed", job.id) ∈
      (((r.mark_done job.id).increment_stat "completed" 1).publish_event
        "job_completed" job.id).events := by
  refine ⟨by simp [complete_job], by simp [complete_job], by simp [complete_job],
    by simp [complete_job, h], by simp [complete_job], by simp [complete_job],
    ?_, ?_, ?_⟩
  · simp [RedisState.publish_event, RedisState.increment_stat, RedisState.hincrby,
      RedisState.mark_done, RedisState.srem, List.mem_filter]
  · rw [show (complete_job now job res (some r)).2 =
        some (((r.mark_done job.id).increment_stat "completed" 1).publish_event
          "job_completed" job.id) by simp [complete_job]]
    rw [getStat_publish, getStat_increment, getStat_mark_done]
  · simp [RedisState.publish_event, RedisState.increment_stat, RedisState.hincrby,
      RedisState.mark_done, RedisState.srem]

/-- C7 witness: completion of a claimed job at concrete times. -/
theorem C7_complete_spec_witness :
    (complete_job 2 { sampleSubmit.1 with started_at := some 1 } []
      (some RedisState.empty)).1.status = JobStatus.completed ∧
    getStat (complete_job 2 { sampleSubmit.1 with started_at := some 1 } []
      (some RedisState.empty)).2 "completed" =
      getStat (some RedisState.empty) "completed" + 1 := by
  have h := C7_complete_spec 2 1 { sampleSubmit.1 with started_at := some 1 } []
    RedisState.empty rfl
  exact ⟨h.1, h.2.2.2.2.2.2.2.1⟩

/-- C8: cancel rejects exactly on COMPLETED or CANCELLED (row untouched,
an HTTP 400 is raised before any write); on every other status it writes
CANCELLED with `completed_at` set and removes the id from both the
priority queue and the processing set. -/
theorem C8_cancel_spec (now : ℚ) (job : Job) (r : RedisState) :
    ((∃ e, cancel_job now job (some r) = Except.error e) ↔
      (job.status = JobStatus.completed ∨ job.status = JobStatus.cancelled)) ∧
    (¬(job.status = JobStatus.completed ∨ job.status = JobStatus.cancelled) →
      cancel_job now job (some r) =
        Except.ok ({ job with status := JobStatus.cancelled, completed_at := some now },
          some (r.remove job.id)) ∧
      ((r.remove job.id).queue.all fun e => decide (e.1 ≠ job.id)) = true ∧
      job.id ∉ (r.remove job.id).processing) := by
  by_cases hs : job.status = JobStatus.completed ∨ job.status = JobStatus.cancelled
  · refine ⟨⟨fun _ => hs, fun _ => ⟨"Cannot cancel job in terminal state",
      by simp [cancel_job, hs]⟩⟩, fun h => absurd hs h⟩
  · refine ⟨⟨fun ⟨e, he⟩ => ?_, fun h => absurd h hs⟩, fun _ => ⟨by simp [cancel_job, hs],
      ?_, ?_⟩⟩
    · rw [show cancel_job now job (some r) =
          Except.ok ({ job with status := JobStatus.cancelled, completed_at := some now },
            some (r.remove job.id)) by simp [cancel_job, hs]] at he
      exact absurd he (by simp)
    · simp [RedisState.remove, RedisState.zrem, RedisState.srem, List.all_eq_true,
        List.mem_filter]
    · simp [RedisState.remove, RedisState.zrem, RedisState.srem, List.mem_filter]

/-- C8 witness: rejection on a COMPLETED job and success on a QUEUED one. -/
theorem C8_cancel_spec_witness :
    (∃ e, cancel_job 1 { sampleSubmit.1 with status := JobStatus.completed }
      (some RedisState.empty) = Except.error e) ∧
    sampleSubmit.1.id ∉ (RedisState.empty.remove sampleSubmit.1.id).processing := by
  constructor
  · exact (C8_cancel_spec 1 { sampleSubmit.1 with status := JobStatus.completed }
      RedisState.empty).1.mpr (Or.inl rfl)
  · exact ((C8_cancel_spec 1 sampleSubmit.1 RedisState.empty).2 (by decide)).2.2

/-- C9: a claimed job whose type has no registered handler is failed
permanently on its first attempt (`attempt = 1`): FAILED status, a
"no handler" error message, `completed_at` set, `next_retry_at` never
written, never RETRYING, the `failed` counter bumped — whatever
`max_retries` is. -/
theorem C9_missing_handler (st : Settings) (handlers : HandlerMap) (w : String)
    (t1 t2 : ℚ) (job : Job) (r : RedisState)
    (hclaim : job.status ∈ claimableStatuses) (h0 : job.attempt = 0)
    (hh : handlers job.job_type = none) :
    (execute st handlers w t1 t2 false job (some r)).1.status = JobStatus.failed ∧
    (execute st handlers w t1 t2 false job (some r)).1.attempt = 1 ∧
    (execute st handlers w t1 t2 false job (some r)).1.error_message =
      some ("No handler for type: " ++ job.job_type) ∧
    (execute st handlers w t1 t2 false job (some r)).1.completed_at = some t2 ∧
    (execute st handlers w t1 t2 false job (some r)).1.next_retry_at = job.next_retry_at ∧
    (execute st handlers w t1 t2 false job (some r)).1.status ≠ JobStatus.retrying ∧
    getStat (execute st handlers w t1 t2 false job (some r)).2.1 "failed" =
      getStat (some r) "failed" + 1 := by
  refine ⟨by simp [execute, claim_job, hclaim, hh, fail_job],
    by simp [execute, claim_job, hclaim, hh, fail_job, h0],
    by simp [execute, claim_job, hclaim, hh, fail_job],
    by simp [execute, claim_job, hclaim, hh, fail_job],
    by simp [execute, claim_job, hclaim, hh, fail_job],
    by simp [execute, claim_job, hclaim, hh, fail_job],
    ?_⟩
  rw [show (execute st handlers w t1 t2 false job (some r)).2.1 =
      some (((r.mark_done job.id).increment_stat "failed" 1).publish_event
        "job_failed" job.id) by simp [execute, claim_job, hclaim, hh, fail_job]]
  rw [getStat_publish, getStat_increment, getStat_mark_done]

/-- C9 witness: a registry with no handlers fails the sample job. -/
theorem C9_missing_handler_witness :
    (execute defaultSettings (fun _ => none) "w" 0 1 false sampleSubmit.1
      (some RedisState.empty)).1.status = JobStatus.failed ∧
    (execute defaultSettings (fun _ => none) "w" 0 1 false sampleSubmit.1
      (some RedisState.empty)).1.attempt = 1 := by
  have h := C9_missing_handler defaultSettings (fun _ => none) "w" 0 1 sampleSubmit.1
    RedisState.empty (by decide) (by decide) rfl
  exact ⟨h.1, h.2.1⟩

/-- C5: retry rejects (HTTP 400, row untouched) unless the status is
FAILED or CANCELLED; otherwise it resets the row to QUEUED with
`attempt = 0`, clears error/result/timings/`next_retry_at` and
re-enqueues; and `submit; cancel; retry` lands back on QUEUED with
`attempt = 0`. -/
theorem C5_retry_endpoint (job : Job) (r : RedisState) :
    (¬(job.status = JobStatus.failed ∨ job.status = JobStatus.cancelled) →
      ∃ e, retry_job job (some r) = Except.error e) ∧
    ((job.status = JobStatus.failed ∨ job.status = JobStatus.cancelled) →
      retry_job job (some r) =
        Except.ok ({ job with
          status := JobStatus.queued, attempt := 0, error_message := none, result := none,
          started_at := none, completed_at := none, duration_seconds := none,
          next_retry_at := none }, some (r.enqueue job.id job.priority))) ∧
    (∀ (t1 t2 : ℚ) (id name jt cb : String) (p : Int) (pl : JsonObj) (mr : Nat)
      (sa : Option ℚ) (r0 : Option RedisState),
      ∃ out, submitCancelRetry t1 t2 id name jt p pl mr sa cb r0 = Except.ok out ∧
        out.1.status = JobStatus.queued ∧ out.1.attempt = 0) := by
  refine ⟨fun h => ⟨"Can only retry failed or cancelled jobs", by simp [retry_job, h]⟩,
    fun h => by simp [retry_job, h], ?_⟩
  intro t1 t2 id name jt cb p pl mr sa r0
  exact ⟨_, rfl, rfl, rfl⟩

/-- C5 witness: rejection on a QUEUED job, reset on a FAILED one, and the
round trip at concrete arguments. -/
theorem C5_retry_endpoint_witness :
    (∃ e, retry_job sampleSubmit.1 (some RedisState.empty) = Except.error e) ∧
    (∃ x, retry_job sampleRun2.1 (some RedisState.empty) = Except.ok x ∧
      x.1.attempt = 0) ∧
    (∃ out, submitCancelRetry 0 1 "K" "job-K" "email" 5 [] 3 none "carol" none =
      Except.ok out ∧ out.1.status = JobStatus.queued ∧ out.1.attempt = 0) := by
  refine ⟨(C5_retry_endpoint sampleSubmit.1 RedisState.empty).1 (by decide), ?_, ?_⟩
  · have h := (C5_retry_endpoint sampleRun2.1 RedisState.empty).2.1 (by decide)
    exact ⟨_, h, rfl⟩
  · exact (C5_retry_endpoint sampleSubmit.1 RedisState.empty).2.2 0 1 "K" "job-K" "email"
      "carol" 5 [] 3 none none

/-- C6 (amended): the attempt counter never decreases under the executor
operations (claim increments it; complete, recoverable-failure handling,
permanent failure leave it alone), the retry-scheduler sweep, or cancel;
the explicit API retry is the one exception: it resets `attempt` to 0. -/
theorem C6_attempt_monotone (st : Settings) (w : String) (now : ℚ) (locked : Bool)
    (job : Job) (error : String) (res : JsonObj) (r : Option RedisState) :
    (∀ j', claim_job w now locked job = some j' → job.attempt ≤ j'.attempt) ∧
    (complete_job now job res r).1.attempt = job.attempt ∧
    (handle_failure st now job error r).1.attempt = job.attempt ∧
    (fail_job now job error r).1.attempt = job.attempt ∧
    (retry_sweep_job job r locked).1.attempt = job.attempt ∧
    (∀ x, cancel_job now job r = Except.ok x → x.1.attempt = job.attempt) ∧
    (∀ x, retry_job job r = Except.ok x → x.1.attempt = 0) := by
  refine ⟨?_, by simp [complete_job], ?_, ?_, ?_, ?_, ?_⟩
  · intro j' h
    by_cases hl : locked
    · simp [claim_job, hl] at h
    · by_cases hm : job.status ∈ claimableStatuses
      · simp only [claim_job, hl, if_false, hm, if_pos, Bool.false_eq_true,
          Option.some.injEq] at h
        subst h
        simp
      · simp [claim_job, hl, hm] at h
  · by_cases h : job.attempt < job.max_retries <;>
      cases hs : job.started_at <;> simp [handle_failure, fail_job, h, hs]
  · cases hs : job.started_at <;> simp [fail_job, hs]
  · cases r with
    | some rr => simp [retry_sweep_job]
    | none => by_cases hl : locked <;> simp [retry_sweep_job, hl]
  · intro x hx
    by_cases hs : job.status = JobStatus.completed ∨ job.status = JobStatus.cancelled
    · simp [cancel_job, hs] at hx
    · simp only [cancel_job, hs, if_false, Except.ok.injEq] at hx
      subst hx
      simp
  · intro x hx
    by_cases hs : job.status = JobStatus.failed ∨ job.status = JobStatus.cancelled
    · simp only [retry_job, hs, if_pos, Except.ok.injEq] at hx
      subst hx
      simp
    · simp [retry_job, hs] at hx

/-- C6 witness: the claim of a fresh job increments its attempt. -/
theorem C6_attempt_monotone_witness :
    ∃ j', claim_job "w" 0 false sampleSubmit.1 = some j' ∧
      sampleSubmit.1.attempt ≤ j'.attempt := by
  refine ⟨_, rfl, ?_⟩
  exact (C6_attempt_monotone defaultSettings "w" 0 false sampleSubmit.1 "e" [] none).1 _ rfl

/-- C6 counterexample: the explicit API retry of the permanently failed
sample job (attempt = 2) writes `attempt = 0`, a strict decrease, so the
claim that every listed operation (including the explicit API retry)
leaves `attempt` unchanged or increases it fails. -/
theorem C6_counterexample :
    retry_job sampleRun2.1 none =
      Except.ok ({ sampleRun2.1 with
        status := JobStatus.queued, attempt := 0, error_message := none, result := none,
        started_at := none, completed_at := none, duration_seconds := none,
        next_retry_at := none }, none) ∧
    0 < sampleRun2.1.attempt := by
  constructor
  · simp [retry_job, show sampleRun2.1.status = JobStatus.failed by decide]
  · decide

/-- C4 (bug evidence): `retryingP0` is a due RETRYING job of priority 0,
legal per the API schema.  The sweep leaves the row RETRYING as claimed,
but re-enqueues it at score −5 — priority 5, from the falsy
`scalar() or 5` — instead of its original priority 0 (score 0), even
though the source comments the line with "Re-enqueue with original
priority". -/
theorem C4_priority_zero_requeue :
    retryDue 5 retryingP0 = true ∧
    retryingP0.priority = 0 ∧
    (retry_sweep_job retryingP0 (some RedisState.empty) false).1 = retryingP0 ∧
    RedisState.queueScore
      ((retry_sweep_job retryingP0 (some RedisState.empty) false).2.getD RedisState.empty)
      retryingP0.id = some (-5) ∧
    some (-5 : Int) ≠ some (-retryingP0.priority) := by
  refine ⟨by decide, by decide, rfl, ?_, by decide⟩
  decide

/-- C1 (amended): for an always-failing job claimed fresh (`attempt = 0`),
the backoffs taken form the sequence `base^1, …, base^(max_retries − 1)`;
the concrete `max_retries = 2` run goes: attempt 1 → RETRYING with
`next_retry_at` 2 seconds away, attempt 2 → FAILED carrying the last
error, with the `retries` counter incremented exactly once and the
`failed` counter once. -/
theorem C1_retry_timeline (st : Settings) (err w : String) (t : ℚ) (job : Job)
    (r : Option RedisState) (hclaim : job.status ∈ claimableStatuses)
    (h0 : job.attempt = 0) :
    collectBackoffs st err w job.max_retries t job r =
      (List.range' 1 (job.max_retries - 1)).map (fun k => st.RETRY_BACKOFF_BASE ^ k) ∧
    sampleRun1.1.status = JobStatus.retrying ∧
    sampleRun1.1.attempt = 1 ∧
    sampleRun1.1.next_retry_at = some 2 ∧
    getStat sampleRun1.2 "retries" = 1 ∧
    sampleRun2.1.status = JobStatus.failed ∧
    sampleRun2.1.attempt = 2 ∧
    sampleRun2.1.error_message = some "boom" ∧
    getStat sampleRun2.2 "retries" = 1 ∧
    getStat sampleRun2.2 "failed" = 1 := by
  have hgen := collectBackoffs_eq st err w job.max_retries t job r hclaim (by omega)
  rw [h0] at hgen
  have e1 : sampleRun1 = failCycle defaultSettings "boom" "w1" 0
      (sampleSubmit.1, sampleSubmit.2) := rfl
  rw [failCycle_retry defaultSettings "boom" "w1" 0 sampleSubmit.1 sampleSubmit.2
    (by decide) (by decide)] at e1
  have hnra : sampleRun1.1.next_retry_at =
      some (0 + defaultSettings.RETRY_BACKOFF_BASE ^ (sampleSubmit.1.attempt + 1)) := by
    rw [e1]
  refine ⟨by simpa using hgen, by decide, by decide, ?_, by decide, by decide, by decide,
    by decide, by decide, by decide⟩
  rw [hnra]
  norm_num [defaultSettings, show sampleSubmit.1.attempt = 0 from rfl]

/-- C1 witness: the sequence of backoffs of the `max_retries = 2` sample
job is `[base^1] = [2]`. -/
theorem C1_retry_timeline_witness :
    collectBackoffs defaultSettings "boom" "w" 2 0 sampleSubmit.1 sampleSubmit.2 = [2] := by
  have h := (C1_retry_timeline defaultSettings "boom" "w" 0 sampleSubmit.1 sampleSubmit.2
    (by decide) (by decide)).1
  simpa [show sampleSubmit.1.max_retries = 2 from rfl, defaultSettings,
    List.range'] using h

/-- C1 counterexample: in the `max_retries = 2` run the second attempt
does not end in RETRYING — it ends FAILED — and the `retries` counter is
incremented once, not twice, refuting the claimed three-attempt timeline. -/
theorem C1_counterexample :
    sampleRun2.1.status ≠ JobStatus.retrying ∧
    sampleRun2.1.status = JobStatus.failed ∧
    sampleRun2.1.attempt = 2 ∧
    getStat sampleRun2.2 "retries" = 1 ∧
    getStat sampleRun2.2 "retries" ≠ 2 := by
  refine ⟨by decide, by decide, by decide, by decide, by decide⟩
